import Mathlib

/-!
Verification development for the byfood-project book CRUD service.

The Go source is embedded shallowly:
* `Book`, `CreateBookDTO`, `UpdateBookDTO` mirror
  `internal/domain/entities/book.go` (UUIDs are modelled as `Nat`,
  `time.Time` as a `Nat` tick).
* `DomainError` mirrors `internal/domain/entities/errors.go`.
* `trimSpace` embeds Go `strings.TrimSpace` (drop leading and trailing
  whitespace) over the character list of the string.
* The Postgres store of `init.sql` is modelled by `DBState` together with
  the SQL statement semantics (`sqlInsert`, `sqlSelectById`, `sqlSelectAll`,
  `sqlUpdate`, `sqlDelete`); `uuid_generate_v4()` is the `nextId` counter,
  `CURRENT_TIMESTAMP` is the `now` field, and the
  `update_books_updated_at` trigger is the `updatedAt := now` assignment
  inside `sqlUpdate`.
* `repoCreate` … `repoDelete` mirror `postgresBookRepository` and
  translate driver-level outcomes (`DriverFault`) into domain errors.
* `CreateBook` … `DeleteBook` mirror `bookUseCase`.
* `handleCreateBook` mirrors `bookHandler.CreateBook`.
-/

namespace ByFood

/-- Whitespace predicate used by the embedding of Go `strings.TrimSpace`. -/
def isSpace (c : Char) : Bool := c.isWhitespace

/-- Drop the longest suffix of `l` whose characters satisfy `p`. -/
def dropTrail (p : Char → Bool) (l : List Char) : List Char :=
  (l.reverse.dropWhile p).reverse

/-- Drop leading and trailing characters satisfying `p`. -/
def trimChars (p : Char → Bool) (l : List Char) : List Char :=
  dropTrail p (l.dropWhile p)

/-- Embedding of Go `strings.TrimSpace`: remove leading and trailing
whitespace from a string. -/
def trimSpace (s : String) : String :=
  String.mk (trimChars isSpace s.data)

/-- `entities.Book`: the sole entity (`id` models the UUID, timestamps are
`Nat` ticks). -/
structure Book where
  id : Nat
  title : String
  author : String
  year : Int
  createdAt : Nat
  updatedAt : Nat
deriving DecidableEq, Repr

/-- `entities.CreateBookDTO`. -/
structure CreateBookDTO where
  title : String
  author : String
  year : Int
deriving DecidableEq, Repr

/-- `entities.UpdateBookDTO`. -/
structure UpdateBookDTO where
  title : String
  author : String
  year : Int
deriving DecidableEq, Repr

/-- `entities/errors.go`: the closed error taxonomy. -/
inductive DomainError where
  | ErrBookNotFound
  | ErrInvalidTitle
  | ErrInvalidAuthor
  | ErrInvalidYear
  | ErrDatabaseError
  | ErrInvalidUUID
deriving DecidableEq, Repr

/-- `CreateBookDTO.Validate` from `book.go`: title, then author, then year,
returning the first failure (`none` = Go `nil`). -/
def CreateBookDTO.Validate (dto : CreateBookDTO) : Option DomainError :=
  if trimSpace dto.title = "" then some .ErrInvalidTitle
  else if trimSpace dto.author = "" then some .ErrInvalidAuthor
  else if dto.year < 1000 ∨ dto.year > 2034 then some .ErrInvalidYear
  else none

/-- `UpdateBookDTO.Validate` from `book.go`: identical rule set. -/
def UpdateBookDTO.Validate (dto : UpdateBookDTO) : Option DomainError :=
  if trimSpace dto.title = "" then some .ErrInvalidTitle
  else if trimSpace dto.author = "" then some .ErrInvalidAuthor
  else if dto.year < 1000 ∨ dto.year > 2034 then some .ErrInvalidYear
  else none

/-- `CreateBookDTO.ToBook` from `book.go`: fresh id (`uuid.New()` modelled
by the `genId` argument), trimmed title/author, zero timestamps. -/
def CreateBookDTO.ToBook (dto : CreateBookDTO) (genId : Nat) : Book :=
  { id := genId
    title := trimSpace dto.title
    author := trimSpace dto.author
    year := dto.year
    createdAt := 0
    updatedAt := 0 }

/-- The entity literal built inside `bookUseCase.UpdateBook`
(`&entities.Book{Title: dto.Title, Author: dto.Author, Year: dto.Year}`):
title and author are passed through untrimmed. -/
def UpdateBookDTO.toBookEntity (dto : UpdateBookDTO) : Book :=
  { id := 0
    title := dto.title
    author := dto.author
    year := dto.year
    createdAt := 0
    updatedAt := 0 }

/-- The Postgres store of `init.sql`: the `books` table rows, the
`uuid_generate_v4()` generator (as a counter) and `CURRENT_TIMESTAMP`. -/
structure DBState where
  rows : List Book
  nextId : Nat
  now : Nat
deriving DecidableEq, Repr

/-- `INSERT INTO books (title, author, year) VALUES (…) RETURNING *`:
the store assigns id and both timestamp defaults and returns the row. -/
def sqlInsert (st : DBState) (title author : String) (year : Int) :
    Book × DBState :=
  let row : Book :=
    { id := st.nextId
      title := title
      author := author
      year := year
      createdAt := st.now
      updatedAt := st.now }
  (row, { st with rows := st.rows ++ [row], nextId := st.nextId + 1 })

/-- `SELECT … FROM books WHERE id = $1` (first matching row, unique in
practice because `id` is the primary key). -/
def sqlSelectById (st : DBState) (id : Nat) : Option Book :=
  st.rows.find? (fun b => b.id == id)

/-- Ordering relation of `ORDER BY created_at DESC`. -/
def createdDesc (a b : Book) : Prop := b.createdAt ≤ a.createdAt

instance : DecidableRel createdDesc := fun a b =>
  inferInstanceAs (Decidable (b.createdAt ≤ a.createdAt))

instance : IsTotal Book createdDesc :=
  ⟨fun a b => (Nat.le_total b.createdAt a.createdAt).imp id id⟩

instance : IsTrans Book createdDesc :=
  ⟨fun _ _ _ h h' => Nat.le_trans h' h⟩

/-- `SELECT … FROM books ORDER BY created_at DESC`. -/
def sqlSelectAll (st : DBState) : List Book :=
  st.rows.insertionSort createdDesc

/-- `UPDATE books SET title=…, author=…, year=… WHERE id=… RETURNING *`,
with the `update_books_updated_at` trigger setting
`updated_at = CURRENT_TIMESTAMP`; returns the first updated row (the one
the Go code scans) and the new table. -/
def sqlUpdate (st : DBState) (id : Nat) (title author : String) (year : Int) :
    Option Book × DBState :=
  let apply : Book → Book := fun b =>
    { b with title := title, author := author, year := year,
             updatedAt := st.now }
  let newRows := st.rows.map (fun b => if b.id == id then apply b else b)
  ((st.rows.find? (fun b => b.id == id)).map apply,
   { st with rows := newRows })

/-- `DELETE FROM books WHERE id = $1`: the affected-row count and the new
table. -/
def sqlDelete (st : DBState) (id : Nat) : Nat × DBState :=
  let remaining := st.rows.filter (fun b => !(b.id == id))
  (st.rows.length - remaining.length, { st with rows := remaining })

/-- Outcome of a single driver call, seen from the repository layer:
`noFault` = the statement ran and scanning worked; `queryErr` = the
query/exec call itself failed (connectivity, timeout, …) before touching
the table; `scanErr` = the statement ran but reading the result
(`StructScan` / `RowsAffected`) failed. -/
inductive DriverFault where
  | noFault
  | queryErr
  | scanErr
deriving DecidableEq, Repr

/-- `postgresBookRepository.Create`: driver failure surfaces as
`ErrDatabaseError`; on success the inserted row is scanned back. -/
def repoCreate (fault : DriverFault) (st : DBState) (book : Book) :
    Except DomainError Book × DBState :=
  match fault with
  | .queryErr => (.error .ErrDatabaseError, st)
  | .scanErr =>
      (.error .ErrDatabaseError, (sqlInsert st book.title book.author book.year).2)
  | .noFault =>
      let r := sqlInsert st book.title book.author book.year
      (.ok r.1, r.2)

/-- `postgresBookRepository.GetByID`: the Go code returns
`entities.ErrBookNotFound` whenever `GetContext` reports an error — both
for `sql.ErrNoRows` and for every other driver failure. -/
def repoGetByID (fault : DriverFault) (st : DBState) (id : Nat) :
    Except DomainError Book :=
  match fault with
  | .noFault =>
      match sqlSelectById st id with
      | some b => .ok b
      | none => .error .ErrBookNotFound
  | _ => .error .ErrBookNotFound

/-- `postgresBookRepository.GetAll`: driver failure surfaces as
`ErrDatabaseError`; otherwise all rows, ordered by `created_at DESC`. -/
def repoGetAll (fault : DriverFault) (st : DBState) :
    Except DomainError (List Book) :=
  match fault with
  | .noFault => .ok (sqlSelectAll st)
  | _ => .error .ErrDatabaseError

/-- `postgresBookRepository.Update`: query failure → `ErrDatabaseError`
(statement never ran); otherwise the update runs, a scanned row is
returned, `rows.Next() == false` (no matching row) → `ErrBookNotFound`,
and a scan failure on a matched row → `ErrDatabaseError`. -/
def repoUpdate (fault : DriverFault) (st : DBState) (id : Nat) (book : Book) :
    Except DomainError Book × DBState :=
  match fault with
  | .queryErr => (.error .ErrDatabaseError, st)
  | .scanErr =>
      match sqlUpdate st id book.title book.author book.year with
      | (some _, st') => (.error .ErrDatabaseError, st')
      | (none, st') => (.error .ErrBookNotFound, st')
  | .noFault =>
      match sqlUpdate st id book.title book.author book.year with
      | (some r, st') => (.ok r, st')
      | (none, st') => (.error .ErrBookNotFound, st')

/-- `postgresBookRepository.Delete`: exec failure → `ErrDatabaseError`
(nothing deleted); `RowsAffected` failure → `ErrDatabaseError` (the
delete did run); zero rows affected → `ErrBookNotFound`; otherwise
success (`none` = Go `nil`). -/
def repoDelete (fault : DriverFault) (st : DBState) (id : Nat) :
    Option DomainError × DBState :=
  match fault with
  | .queryErr => (some .ErrDatabaseError, st)
  | .scanErr => (some .ErrDatabaseError, (sqlDelete st id).2)
  | .noFault =>
      let r := sqlDelete st id
      if r.1 = 0 then (some .ErrBookNotFound, r.2) else (none, r.2)

/-- `bookUseCase.CreateBook`: validate, convert via `ToBook`, then create
through the repository; a validation failure returns before any
repository call (`genId` models `uuid.New()`). -/
def CreateBook (dto : CreateBookDTO) (genId : Nat) (fault : DriverFault)
    (st : DBState) : Except DomainError Book × DBState :=
  match dto.Validate with
  | some e => (.error e, st)
  | none => repoCreate fault st (dto.ToBook genId)

/-- `bookUseCase.GetBookByID`: straight delegation. -/
def GetBookByID (id : Nat) (fault : DriverFault) (st : DBState) :
    Except DomainError Book :=
  repoGetByID fault st id

/-- `bookUseCase.GetAllBooks`: straight delegation. -/
def GetAllBooks (fault : DriverFault) (st : DBState) :
    Except DomainError (List Book) :=
  repoGetAll fault st

/-- `bookUseCase.UpdateBook`: validate, build the entity from the DTO
untrimmed, then update through the repository. -/
def UpdateBook (id : Nat) (dto : UpdateBookDTO) (fault : DriverFault)
    (st : DBState) : Except DomainError Book × DBState :=
  match dto.Validate with
  | some e => (.error e, st)
  | none => repoUpdate fault st id dto.toBookEntity

/-- `bookUseCase.DeleteBook`: straight delegation. -/
def DeleteBook (id : Nat) (fault : DriverFault) (st : DBState) :
    Option DomainError × DBState :=
  repoDelete fault st id

/-- `handlers.ErrorResponse` (the handler-local shape with `error` and
`message` fields). -/
structure ErrorResponse where
  error : String
  message : String
deriving DecidableEq, Repr

/-- The response written by `bookHandler.CreateBook`. -/
inductive CreateBookResponse where
  | failure (status : Nat) (body : ErrorResponse)
  | success (status : Nat) (book : Book)
deriving DecidableEq, Repr

/-- The HTTP status of a `CreateBookResponse`. -/
def CreateBookResponse.status : CreateBookResponse → Nat
  | .failure s _ => s
  | .success s _ => s

/-- The `error` field of the response body, when the response is an error. -/
def CreateBookResponse.errorField : CreateBookResponse → Option String
  | .failure _ body => some body.error
  | .success _ _ => none

/-- The `err.Error()` strings of `entities/errors.go`. -/
def errMessage : DomainError → String
  | .ErrBookNotFound => "book not found"
  | .ErrInvalidTitle => "title cannot be empty"
  | .ErrInvalidAuthor => "author cannot be empty"
  | .ErrInvalidYear => "year must be between 1000 and 2034"
  | .ErrDatabaseError => "database operation failed"
  | .ErrInvalidUUID => "invalid UUID format"

/-- `bookHandler.CreateBook` after a successful body bind: validation
errors get a 400 with `Error: "Validation failed"`, other errors a 500,
success a 201 with the created book. -/
def handleCreateBook (dto : CreateBookDTO) (genId : Nat)
    (fault : DriverFault) (st : DBState) : CreateBookResponse × DBState :=
  match CreateBook dto genId fault st with
  | (.error e, st') =>
      if e = .ErrInvalidTitle ∨ e = .ErrInvalidAuthor ∨ e = .ErrInvalidYear then
        (.failure 400 ⟨"Validation failed", errMessage e⟩, st')
      else
        (.failure 500 ⟨"Failed to create book", errMessage e⟩, st')
  | (.ok b, st') => (.success 201 b, st')

/-- A row satisfying the persisted-data invariant of the spec: title and
author non-empty after trimming, year within the validated bound. -/
def GoodBook (b : Book) : Prop :=
  trimSpace b.title ≠ "" ∧ trimSpace b.author ≠ "" ∧
    1000 ≤ b.year ∧ b.year ≤ 2034

/-- Every persisted row satisfies `GoodBook`. -/
def GoodState (st : DBState) : Prop :=
  ∀ b ∈ st.rows, GoodBook b

/-! ## Helper lemmas -/

theorem dropWhile_dropWhile (p : Char → Bool) (l : List Char) :
    (l.dropWhile p).dropWhile p = l.dropWhile p := by
  cases h : l.dropWhile p with
  | nil => simp
  | cons a t =>
    have hh := List.head?_dropWhile_not p l
    rw [h] at hh
    simp only [List.head?_cons] at hh
    simp [List.dropWhile_cons, hh]

theorem dropTrail_append (p : Char → Bool) (l : List Char) :
    l = dropTrail p l ++ (l.reverse.takeWhile p).reverse := by
  unfold dropTrail
  calc l = l.reverse.reverse := (List.reverse_reverse l).symm
    _ = (l.reverse.takeWhile p ++ l.reverse.dropWhile p).reverse := by
        rw [List.takeWhile_append_dropWhile]
    _ = (l.reverse.dropWhile p).reverse ++ (l.reverse.takeWhile p).reverse :=
        List.reverse_append _ _

theorem dropWhile_dropTrail (p : Char → Bool) (l : List Char)
    (hl : l.dropWhile p = l) :
    (dropTrail p l).dropWhile p = dropTrail p l := by
  cases hd : dropTrail p l with
  | nil => simp
  | cons a t =>
    have hsplit := dropTrail_append p l
    rw [hd] at hsplit
    have hla : l.head? = some a := by rw [hsplit]; rfl
    have hh := List.head?_dropWhile_not p l
    rw [hl, hla] at hh
    simp only [] at hh
    simp [List.dropWhile_cons, hh]

theorem dropTrail_dropTrail (p : Char → Bool) (l : List Char) :
    dropTrail p (dropTrail p l) = dropTrail p l := by
  unfold dropTrail
  rw [List.reverse_reverse, dropWhile_dropWhile]

theorem trimChars_idem (p : Char → Bool) (l : List Char) :
    trimChars p (trimChars p l) = trimChars p l := by
  unfold trimChars
  rw [dropWhile_dropTrail p _ (dropWhile_dropWhile p l), dropTrail_dropTrail]

theorem trimSpace_idem (s : String) :
    trimSpace (trimSpace s) = trimSpace s := by
  unfold trimSpace
  simp only [String.data]
  rw [trimChars_idem]

theorem createValidate_none_iff (c : CreateBookDTO) :
    c.Validate = none ↔
      trimSpace c.title ≠ "" ∧ trimSpace c.author ≠ "" ∧
        1000 ≤ c.year ∧ c.year ≤ 2034 := by
  unfold CreateBookDTO.Validate
  split_ifs <;> simp_all <;> omega

theorem updateValidate_none_iff (u : UpdateBookDTO) :
    u.Validate = none ↔
      trimSpace u.title ≠ "" ∧ trimSpace u.author ≠ "" ∧
        1000 ≤ u.year ∧ u.year ≤ 2034 := by
  unfold UpdateBookDTO.Validate
  split_ifs <;> simp_all <;> omega

theorem length_filter_not_add_countP (p : Book → Bool) (l : List Book) :
    (l.filter (fun a => !(p a))).length + l.countP p = l.length := by
  induction l with
  | nil => rfl
  | cons a t ih =>
    by_cases h : p a <;>
      simp [List.filter_cons, List.countP_cons, h] <;> omega

theorem sqlDelete_count (st : DBState) (id : Nat) :
    (sqlDelete st id).1 = st.rows.countP (fun b => b.id == id) := by
  have h := length_filter_not_add_countP (fun b => b.id == id) st.rows
  simp only [sqlDelete]
  omega

/-! ## Claims -/

/-- C1: a creation or update request that fails validation makes
`CreateBook` / `UpdateBook` return exactly that validation error with the
storage state unchanged, for every possible driver outcome — so the
repository is never consulted on the validation-failure path. -/
theorem validation_failure_skips_repository (c : CreateBookDTO)
    (u : UpdateBookDTO) (e e' : DomainError) (genId id : Nat) (st : DBState)
    (hc : c.Validate = some e) (hu : u.Validate = some e') :
    (∀ fault, CreateBook c genId fault st = (.error e, st)) ∧
    (∀ fault, UpdateBook id u fault st = (.error e', st)) := by
  constructor <;> intro fault
  · simp [CreateBook, hc]
  · simp [UpdateBook, hu]

/-- Witness for C1: the concrete invalid requests with empty title. -/
theorem validation_failure_skips_repository_witness :
    CreateBook ⟨"", "X", 2000⟩ 0 .queryErr ⟨[], 0, 0⟩
      = (.error .ErrInvalidTitle, ⟨[], 0, 0⟩) ∧
    UpdateBook 0 ⟨" ", "X", 2000⟩ .queryErr ⟨[], 0, 0⟩
      = (.error .ErrInvalidTitle, ⟨[], 0, 0⟩) :=
  ⟨(validation_failure_skips_repository ⟨"", "X", 2000⟩ ⟨" ", "X", 2000⟩
      .ErrInvalidTitle .ErrInvalidTitle 0 0 ⟨[], 0, 0⟩
      (by decide) (by decide)).1 .queryErr,
   (validation_failure_skips_repository ⟨"", "X", 2000⟩ ⟨" ", "X", 2000⟩
      .ErrInvalidTitle .ErrInvalidTitle 0 0 ⟨[], 0, 0⟩
      (by decide) (by decide)).2 .queryErr⟩

/-- C2: for every creation and update request, validation returns
`ErrInvalidTitle` exactly when the title trims to empty (covering both the
empty and the whitespace-only title); otherwise `ErrInvalidAuthor` exactly
when the author trims to empty; otherwise `ErrInvalidYear` exactly when
the year lies outside `[1000, 2034]`; otherwise it succeeds — the checks
run in the fixed order title, author, year and stop at the first failure. -/
theorem validate_order_and_conditions (c : CreateBookDTO) (u : UpdateBookDTO) :
    ((c.Validate = some .ErrInvalidTitle ↔ trimSpace c.title = "") ∧
     (c.Validate = some .ErrInvalidAuthor ↔
        trimSpace c.title ≠ "" ∧ trimSpace c.author = "") ∧
     (c.Validate = some .ErrInvalidYear ↔
        trimSpace c.title ≠ "" ∧ trimSpace c.author ≠ "" ∧
          (c.year < 1000 ∨ c.year > 2034)) ∧
     (c.Validate = none ↔
        trimSpace c.title ≠ "" ∧ trimSpace c.author ≠ "" ∧
          1000 ≤ c.year ∧ c.year ≤ 2034)) ∧
    ((u.Validate = some .ErrInvalidTitle ↔ trimSpace u.title = "") ∧
     (u.Validate = some .ErrInvalidAuthor ↔
        trimSpace u.title ≠ "" ∧ trimSpace u.author = "") ∧
     (u.Validate = some .ErrInvalidYear ↔
        trimSpace u.title ≠ "" ∧ trimSpace u.author ≠ "" ∧
          (u.year < 1000 ∨ u.year > 2034)) ∧
     (u.Validate = none ↔
        trimSpace u.title ≠ "" ∧ trimSpace u.author ≠ "" ∧
          1000 ≤ u.year ∧ u.year ≤ 2034)) := by
  constructor
  · unfold CreateBookDTO.Validate
    split_ifs with h1 h2 h3 <;> refine ⟨?_, ?_, ?_, ?_⟩ <;> simp_all <;> omega
  · unfold UpdateBookDTO.Validate
    split_ifs with h1 h2 h3 <;> refine ⟨?_, ?_, ?_, ?_⟩ <;> simp_all <;> omega

/-- C9: the repository create either surfaces a driver failure as
`ErrDatabaseError`, or succeeds and returns exactly the row the store
persisted — with the store-assigned id and both timestamp defaults — and
that row is the one appended to the table. -/
theorem repoCreate_contract (st : DBState) (b : Book) :
    (∀ fault, fault ≠ DriverFault.noFault →
       (repoCreate fault st b).1 = .error .ErrDatabaseError) ∧
    (repoCreate .noFault st b =
       (.ok { id := st.nextId, title := b.title, author := b.author,
              year := b.year, createdAt := st.now, updatedAt := st.now },
        { st with
            rows := st.rows ++
              [{ id := st.nextId, title := b.title, author := b.author,
                 year := b.year, createdAt := st.now, updatedAt := st.now }],
            nextId := st.nextId + 1 })) := by
  constructor
  · intro fault h
    cases fault with
    | noFault => exact absurd rfl h
    | queryErr => rfl
    | scanErr => rfl
  · rfl

/-- Witness for C9: a failing driver call on a concrete store surfaces as
`ErrDatabaseError`. -/
theorem repoCreate_contract_witness :
    (repoCreate .queryErr ⟨[], 3, 9⟩ ⟨0, "T", "A", 2000, 0, 0⟩).1
      = .error .ErrDatabaseError :=
  (repoCreate_contract ⟨[], 3, 9⟩ ⟨0, "T", "A", 2000, 0, 0⟩).1 .queryErr
    (by decide)

/-- C3 counterexample: a driver-level failure that is not a "no rows"
condition (modelled by `DriverFault.queryErr`, covering connectivity and
timeout failures) is surfaced by `GetByID` as `ErrBookNotFound` — not as
`ErrDatabaseError` as the claim states, since the two error kinds differ. -/
theorem getByID_fault_counterexample :
    repoGetByID .queryErr ⟨[], 0, 0⟩ 5 = .error .ErrBookNotFound ∧
    DomainError.ErrBookNotFound ≠ DomainError.ErrDatabaseError := by
  exact ⟨rfl, by decide⟩

/-- C3 amended: the repository read-by-id surfaces the zero-rows condition
as `ErrBookNotFound`, and it also surfaces every other storage failure as
`ErrBookNotFound` (never `ErrDatabaseError`), because the Go code maps any
`GetContext` error to `entities.ErrBookNotFound`; a found row is returned
as-is. -/
theorem getByID_all_failures_not_found (st : DBState) (id : Nat) :
    (∀ fault, fault ≠ DriverFault.noFault →
       repoGetByID fault st id = .error .ErrBookNotFound) ∧
    (sqlSelectById st id = none →
       repoGetByID .noFault st id = .error .ErrBookNotFound) ∧
    (∀ b, sqlSelectById st id = some b →
       repoGetByID .noFault st id = .ok b) := by
  refine ⟨?_, ?_, ?_⟩
  · intro fault h
    cases fault with
    | noFault => exact absurd rfl h
    | queryErr => rfl
    | scanErr => rfl
  · intro h
    simp [repoGetByID, h]
  · intro b h
    simp [repoGetByID, h]

/-- Witness for C3 (amended): on the empty store a read of id 5 reports
`ErrBookNotFound`. -/
theorem getByID_all_failures_not_found_witness :
    repoGetByID .noFault ⟨[], 0, 0⟩ 5 = .error .ErrBookNotFound :=
  (getByID_all_failures_not_found ⟨[], 0, 0⟩ 5).2.1 rfl

/-- C4: a valid update of a known id returns the stored row with id and
`created_at` unchanged, `updated_at` refreshed to the current clock (and
hence strictly greater than before, assuming the clock advanced past the
row's last write), and title/author/year exactly as supplied by the
request; an unknown id (zero rows affected) yields `ErrBookNotFound`. -/
theorem update_contract (st : DBState) (id : Nat) (u : UpdateBookDTO)
    (b : Book) (hv : u.Validate = none) :
    (st.rows.find? (fun x => x.id == id) = some b → b.updatedAt < st.now →
       (UpdateBook id u .noFault st).1 =
         .ok { b with title := u.title, author := u.author,
                      year := u.year, updatedAt := st.now } ∧
       (∀ r st2, UpdateBook id u .noFault st = (.ok r, st2) →
          r.id = b.id ∧ r.createdAt = b.createdAt ∧
          b.updatedAt < r.updatedAt ∧ r.updatedAt = st.now ∧
          r.title = u.title ∧ r.author = u.author ∧ r.year = u.year)) ∧
    (st.rows.find? (fun x => x.id == id) = none →
       (UpdateBook id u .noFault st).1 = .error .ErrBookNotFound) := by
  constructor
  · intro hb hlt
    have hres : (UpdateBook id u .noFault st).1 =
        .ok { b with title := u.title, author := u.author,
                     year := u.year, updatedAt := st.now } := by
      simp [UpdateBook, hv, repoUpdate, sqlUpdate, UpdateBookDTO.toBookEntity, hb]
    refine ⟨hres, ?_⟩
    intro r st2 hr
    have hr1 : (UpdateBook id u .noFault st).1 = .ok r := by rw [hr]
    rw [hres] at hr1
    injection hr1 with h2
    subst h2
    exact ⟨rfl, rfl, hlt, rfl, rfl, rfl, rfl⟩
  · intro hb
    simp [UpdateBook, hv, repoUpdate, sqlUpdate, UpdateBookDTO.toBookEntity, hb]

/-- Witness for C4: updating the single row of a concrete store. -/
theorem update_contract_witness :
    (UpdateBook 1 ⟨"New", "B", 2001⟩ .noFault
        ⟨[⟨1, "Old", "A", 1990, 5, 5⟩], 2, 9⟩).1
      = .ok ⟨1, "New", "B", 2001, 5, 9⟩ :=
  ((update_contract ⟨[⟨1, "Old", "A", 1990, 5, 5⟩], 2, 9⟩ 1
      ⟨"New", "B", 2001⟩ ⟨1, "Old", "A", 1990, 5, 5⟩ (by decide)).1
    (by decide) (by decide)).1

/-- C5: delete reports `ErrBookNotFound` exactly when zero rows are
affected (the id matches no row), surfaces any other storage failure as
`ErrDatabaseError`, and a successful delete removes the row so that a
subsequent read-by-id yields `ErrBookNotFound`. -/
theorem delete_contract (st : DBState) (id : Nat) :
    (∀ fault, fault ≠ DriverFault.noFault →
       (DeleteBook id fault st).1 = some .ErrDatabaseError) ∧
    ((DeleteBook id .noFault st).1 = some .ErrBookNotFound ↔
       st.rows.find? (fun b => b.id == id) = none) ∧
    (st.rows.find? (fun b => b.id == id) ≠ none →
       (DeleteBook id .noFault st).1 = none ∧
       repoGetByID .noFault (DeleteBook id .noFault st).2 id
         = .error .ErrBookNotFound) := by
  have key : st.rows.countP (fun b => b.id == id) = 0 ↔
      st.rows.find? (fun b => b.id == id) = none := by
    rw [List.countP_eq_zero, List.find?_eq_none]
  refine ⟨?_, ?_, ?_⟩
  · intro fault h
    cases fault with
    | noFault => exact absurd rfl h
    | queryErr => rfl
    | scanErr => rfl
  · rw [← key]
    by_cases h0 : st.rows.countP (fun b => b.id == id) = 0
    · have hres : (DeleteBook id .noFault st).1 = some .ErrBookNotFound := by
        simp [DeleteBook, repoDelete, sqlDelete_count, h0]
      simp [hres, h0]
    · have hres : (DeleteBook id .noFault st).1 = none := by
        simp [DeleteBook, repoDelete, sqlDelete_count, h0]
      simp [hres, h0]
  · intro hfind
    have h0 : ¬ st.rows.countP (fun b => b.id == id) = 0 := fun hc =>
      hfind (key.mp hc)
    have hcnt : ¬ (sqlDelete st id).1 = 0 := by
      rw [sqlDelete_count]; exact h0
    refine ⟨?_, ?_⟩
    · simp [DeleteBook, repoDelete, hcnt]
    · have hst : (DeleteBook id .noFault st).2.rows
          = st.rows.filter (fun b => !(b.id == id)) := by
        simp only [DeleteBook, repoDelete, sqlDelete]
        split <;> rfl
      have hnone : sqlSelectById (DeleteBook id .noFault st).2 id = none := by
        rw [sqlSelectById, hst, List.find?_eq_none]
        intro x hx
        have hmem := (List.mem_filter.mp hx).2
        simp only [Bool.not_eq_true'] at hmem
        simp [hmem]
      simp [repoGetByID, hnone]

/-- Witness for C5: deleting the single row of a concrete store succeeds
and a subsequent read of that id reports `ErrBookNotFound`. -/
theorem delete_contract_witness :
    (DeleteBook 1 .noFault ⟨[⟨1, "T", "A", 2000, 3, 3⟩], 2, 9⟩).1 = none ∧
    repoGetByID .noFault
        (DeleteBook 1 .noFault ⟨[⟨1, "T", "A", 2000, 3, 3⟩], 2, 9⟩).2 1
      = .error .ErrBookNotFound :=
  (delete_contract ⟨[⟨1, "T", "A", 2000, 3, 3⟩], 2, 9⟩ 1).2.2 (by decide)

/-- C6: listing returns all stored rows ordered by `created_at`
descending (a permutation of the table, sorted), and the empty store
yields the empty list with no error. -/
theorem getAll_sorted (st : DBState) :
    (∀ l, GetAllBooks .noFault st = .ok l →
       l.Perm st.rows ∧ l.Sorted createdDesc) ∧
    (st.rows = [] → GetAllBooks .noFault st = .ok []) := by
  constructor
  · intro l h
    have hl : sqlSelectAll st = l := by
      have : GetAllBooks .noFault st = .ok (sqlSelectAll st) := rfl
      rw [this] at h
      injection h
    subst hl
    exact ⟨List.perm_insertionSort _ _, List.sorted_insertionSort _ _⟩
  · intro h
    simp [GetAllBooks, repoGetAll, sqlSelectAll, h]

/-- Witness for C6: a two-row store lists most recently created first. -/
theorem getAll_sorted_witness :
    ([⟨2, "B", "b", 2001, 5, 5⟩, ⟨1, "A", "a", 2000, 1, 1⟩] : List Book).Perm
        [⟨1, "A", "a", 2000, 1, 1⟩, ⟨2, "B", "b", 2001, 5, 5⟩] ∧
    ([⟨2, "B", "b", 2001, 5, 5⟩, ⟨1, "A", "a", 2000, 1, 1⟩] : List Book).Sorted
        createdDesc :=
  (getAll_sorted ⟨[⟨1, "A", "a", 2000, 1, 1⟩, ⟨2, "B", "b", 2001, 5, 5⟩],
      3, 9⟩).1 [⟨2, "B", "b", 2001, 5, 5⟩, ⟨1, "A", "a", 2000, 1, 1⟩] rfl

/-- C7: every book that reaches a repository write through the use-case
layer has title and author non-empty after trimming and year within
`[1000, 2034]`, and `GoodState` — no persisted row empty or
whitespace-only, year in bound — is preserved by create, update and
delete (for every driver outcome). -/
theorem persisted_invariant (st : DBState) (hGood : GoodState st) :
    (∀ c : CreateBookDTO, ∀ genId, c.Validate = none →
       GoodBook (c.ToBook genId)) ∧
    (∀ u : UpdateBookDTO, u.Validate = none → GoodBook u.toBookEntity) ∧
    (∀ c genId fault, GoodState (CreateBook c genId fault st).2) ∧
    (∀ id u fault, GoodState (UpdateBook id u fault st).2) ∧
    (∀ id fault, GoodState (DeleteBook id fault st).2) := by
  refine ⟨?_, ?_, ?_, ?_, ?_⟩
  · intro c genId hv
    obtain ⟨h1, h2, h3, h4⟩ := (createValidate_none_iff c).mp hv
    exact ⟨by simpa [CreateBookDTO.ToBook, trimSpace_idem] using h1,
           by simpa [CreateBookDTO.ToBook, trimSpace_idem] using h2, h3, h4⟩
  · intro u hv
    obtain ⟨h1, h2, h3, h4⟩ := (updateValidate_none_iff u).mp hv
    exact ⟨h1, h2, h3, h4⟩
  · intro c genId fault
    cases hv : c.Validate with
    | some e => simpa [CreateBook, hv] using hGood
    | none =>
      obtain ⟨h1, h2, h3, h4⟩ := (createValidate_none_iff c).mp hv
      have hnew : GoodBook
          { id := st.nextId, title := trimSpace c.title,
            author := trimSpace c.author, year := c.year,
            createdAt := st.now, updatedAt := st.now } := by
        exact ⟨by simpa [trimSpace_idem] using h1,
               by simpa [trimSpace_idem] using h2, h3, h4⟩
      cases fault with
      | queryErr => simpa [CreateBook, hv, repoCreate] using hGood
      | scanErr =>
        simp only [CreateBook, hv, repoCreate, sqlInsert, GoodState,
          CreateBookDTO.ToBook]
        intro b hb
        rcases List.mem_append.mp hb with h | h
        · exact hGood b h
        · rcases List.mem_singleton.mp h with rfl
          exact hnew
      | noFault =>
        simp only [CreateBook, hv, repoCreate, sqlInsert, GoodState,
          CreateBookDTO.ToBook]
        intro b hb
        rcases List.mem_append.mp hb with h | h
        · exact hGood b h
        · rcases List.mem_singleton.mp h with rfl
          exact hnew
  · intro id u fault
    cases hv : u.Validate with
    | some e => simpa [UpdateBook, hv] using hGood
    | none =>
      obtain ⟨h1, h2, h3, h4⟩ := (updateValidate_none_iff u).mp hv
      have hmap : ∀ b ∈ st.rows.map (fun x =>
          if x.id == id then
            { x with title := u.title, author := u.author, year := u.year,
                     updatedAt := st.now }
          else x), GoodBook b := by
        intro b hb
        rcases List.mem_map.mp hb with ⟨a, ha, rfl⟩
        by_cases hid : a.id == id
        · simp only [hid, if_pos]
          exact ⟨h1, h2, h3, h4⟩
        · simp only [hid, if_neg]
          exact hGood a ha
      cases fault with
      | queryErr => simpa [UpdateBook, hv, repoUpdate] using hGood
      | scanErr =>
        cases hf : st.rows.find? (fun x => x.id == id) <;>
          simpa [UpdateBook, hv, repoUpdate, sqlUpdate,
            UpdateBookDTO.toBookEntity, hf, GoodState] using hmap
      | noFault =>
        cases hf : st.rows.find? (fun x => x.id == id) <;>
          simpa [UpdateBook, hv, repoUpdate, sqlUpdate,
            UpdateBookDTO.toBookEntity, hf, GoodState] using hmap
  · intro id fault
    have hfil : ∀ b ∈ st.rows.filter (fun x => !(x.id == id)), GoodBook b :=
      fun b hb => hGood b (List.mem_filter.mp hb).1
    cases fault with
    | queryErr => simpa [DeleteBook, repoDelete] using hGood
    | scanErr =>
      simp only [DeleteBook, repoDelete, sqlDelete, GoodState]
      exact fun b hb => hGood b (List.mem_filter.mp hb).1
    | noFault =>
      simp only [DeleteBook, repoDelete, sqlDelete, GoodState]
      split
      · exact fun b hb => hGood b (List.mem_filter.mp hb).1
      · exact fun b hb => hGood b (List.mem_filter.mp hb).1

/-- Witness for C7: the invariant facts at a concrete store and request. -/
theorem persisted_invariant_witness :
    GoodBook (CreateBookDTO.ToBook ⟨" Clean Code ", "Robert Martin", 2008⟩ 7) :=
  (persisted_invariant ⟨[], 0, 0⟩
      (fun b hb => absurd hb (List.not_mem_nil b))).1
    ⟨" Clean Code ", "Robert Martin", 2008⟩ 7 (by decide)

/-- C8 counterexample: posting `title:"", author:"X", year:2000` makes the
handler answer 400 with no row created, but the error field of the body is
the handler-local string "Validation failed", not "VALIDATION_ERROR" (the
handler writes its own response, so the centralized error mapping that
would produce "VALIDATION_ERROR" never runs). -/
theorem post_empty_title_counterexample :
    (handleCreateBook ⟨"", "X", 2000⟩ 0 .noFault ⟨[], 0, 0⟩).1.status = 400 ∧
    (handleCreateBook ⟨"", "X", 2000⟩ 0 .noFault ⟨[], 0, 0⟩).2 = ⟨[], 0, 0⟩ ∧
    (handleCreateBook ⟨"", "X", 2000⟩ 0 .noFault ⟨[], 0, 0⟩).1.errorField
      = some "Validation failed" ∧
    (handleCreateBook ⟨"", "X", 2000⟩ 0 .noFault ⟨[], 0, 0⟩).1.errorField
      ≠ some "VALIDATION_ERROR" :=
  ⟨rfl, rfl, rfl, by decide⟩

/-- C8 amended: a POST of `title:"", author:"X", year:2000` is answered
with status 400, the body `error: "Validation failed"` and
`message: "title cannot be empty"`, and the storage state is unchanged —
for every driver outcome, so no row is created. -/
theorem post_empty_title_response (genId : Nat) (fault : DriverFault)
    (st : DBState) :
    handleCreateBook ⟨"", "X", 2000⟩ genId fault st
      = (.failure 400 ⟨"Validation failed", "title cannot be empty"⟩, st) := by
  have hv : (CreateBookDTO.mk "" "X" 2000).Validate = some .ErrInvalidTitle := by
    decide
  simp [handleCreateBook, CreateBook, hv, errMessage]

/-- C10: a request whose title carries surrounding whitespace (but passes
validation) is persisted trimmed by the create path and untrimmed by the
update path, so the same input yields different persisted strings. -/
theorem create_trims_update_does_not (t a : String) (y : Int) (st : DBState)
    (id genId : Nat) (b : Book)
    (hvc : (CreateBookDTO.mk t a y).Validate = none)
    (hvu : (UpdateBookDTO.mk t a y).Validate = none)
    (ht : trimSpace t ≠ t)
    (hb : st.rows.find? (fun x => x.id == id) = some b) :
    (CreateBook ⟨t, a, y⟩ genId .noFault st).1
        = .ok { id := st.nextId, title := trimSpace t,
                author := trimSpace a, year := y,
                createdAt := st.now, updatedAt := st.now } ∧
    (UpdateBook id ⟨t, a, y⟩ .noFault st).1
        = .ok { b with title := t, author := a, year := y,
                       updatedAt := st.now } ∧
    (∀ rc ru, (CreateBook ⟨t, a, y⟩ genId .noFault st).1 = .ok rc →
       (UpdateBook id ⟨t, a, y⟩ .noFault st).1 = .ok ru →
       rc.title = trimSpace t ∧ ru.title = t ∧ rc.title ≠ ru.title) := by
  have hc : (CreateBook ⟨t, a, y⟩ genId .noFault st).1
      = .ok { id := st.nextId, title := trimSpace t,
              author := trimSpace a, year := y,
              createdAt := st.now, updatedAt := st.now } := by
    simp [CreateBook, hvc, repoCreate, sqlInsert, CreateBookDTO.ToBook]
  have hu : (UpdateBook id ⟨t, a, y⟩ .noFault st).1
      = .ok { b with title := t, author := a, year := y,
                     updatedAt := st.now } := by
    simp [UpdateBook, hvu, repoUpdate, sqlUpdate, UpdateBookDTO.toBookEntity, hb]
  refine ⟨hc, hu, ?_⟩
  intro rc ru h1 h2
  rw [hc] at h1
  rw [hu] at h2
  injection h1 with e1
  injection h2 with e2
  subst e1
  subst e2
  exact ⟨rfl, rfl, ht⟩

/-- Witness for C10: title " Clean Code " persists as "Clean Code" on the
create path and as " Clean Code " on the update path of a concrete store. -/
theorem create_trims_update_does_not_witness :
    (CreateBook ⟨" Clean Code ", "X", 2000⟩ 9 .noFault
        ⟨[⟨1, "Old", "A", 1990, 3, 3⟩], 2, 7⟩).1
      = .ok ⟨2, "Clean Code", "X", 2000, 7, 7⟩ ∧
    (UpdateBook 1 ⟨" Clean Code ", "X", 2000⟩ .noFault
        ⟨[⟨1, "Old", "A", 1990, 3, 3⟩], 2, 7⟩).1
      = .ok ⟨1, " Clean Code ", "X", 2000, 3, 7⟩ :=
  ⟨(create_trims_update_does_not " Clean Code " "X" 2000
      ⟨[⟨1, "Old", "A", 1990, 3, 3⟩], 2, 7⟩ 1 9 ⟨1, "Old", "A", 1990, 3, 3⟩
      (by decide) (by decide) (by decide) (by decide)).1,
   (create_trims_update_does_not " Clean Code " "X" 2000
      ⟨[⟨1, "Old", "A", 1990, 3, 3⟩], 2, 7⟩ 1 9 ⟨1, "Old", "A", 1990, 3, 3⟩
      (by decide) (by decide) (by decide) (by decide)).2.1⟩

end ByFood
